import Mathlib

set_option autoImplicit false

/-!
Verification of the streaming CSV/Parquet export pipeline of the
`chboudry/finance` ingestion scripts.

The Python sources under `ingestion/` are shallowly embedded: every pure
helper becomes a Lean function over `String`/`List`, the stateful writers
become explicit state-passing step functions, and the per-row loops of the
two `transform` entry points become folds over the list of input rows.
String primitives (`strip`, substring search, `replace`, `lower`) are
re-implemented structurally over `List Char` so that every definition
evaluates inside the kernel; they model the corresponding CPython ASCII
behaviour.
-/

/- ### String primitives (structural models of the Python operations) -/

/-- Numeric value of an ASCII digit character. -/
def digitVal (c : Char) : Nat := c.toNat - '0'.toNat

/-- Model of Python `str.strip()`: remove leading and trailing whitespace. -/
def pyStrip (s : String) : String :=
  String.mk (((s.data.dropWhile Char.isWhitespace).reverse.dropWhile
    Char.isWhitespace).reverse)

/-- `pat` is an initial segment of `s` (character lists). -/
def listHasPre : List Char → List Char → Bool
  | [], _ => true
  | _ :: _, [] => false
  | p :: ps, c :: cs => p == c && listHasPre ps cs

/-- `pat` occurs somewhere in the character list. -/
def listContainsSub (pat : List Char) : List Char → Bool
  | [] => listHasPre pat []
  | c :: cs => listHasPre pat (c :: cs) || listContainsSub pat cs

/-- The part of a character list before the first occurrence of `pat`. -/
def beforeFirstList (pat : List Char) : List Char → List Char
  | [] => []
  | c :: cs => if listHasPre pat (c :: cs) then [] else c :: beforeFirstList pat cs

/-- Model of Python `pat in s` (substring containment). -/
def containsSub (s pat : String) : Bool := listContainsSub pat.data s.data

/-- Model of Python `s.split(pat, 1)[0]`: the text before the first
occurrence of `pat` (all of `s` when `pat` does not occur). -/
def beforeFirst (s pat : String) : String :=
  if containsSub s pat then String.mk (beforeFirstList pat.data s.data) else s

/-- Model of Python `s.startswith(pat)`. -/
def strStartsWith (s pat : String) : Bool := listHasPre pat.data s.data

/-- Model of Python `s.endswith(pat)`. -/
def strEndsWith (s pat : String) : Bool := listHasPre pat.data.reverse s.data.reverse

/-- Model of Python `s.lower()` (ASCII letters). -/
def lowerStr (s : String) : String := String.mk (s.data.map Char.toLower)

/-- Model of Python `s.replace("/", "_")` (single-character pattern). -/
def replaceSlashes (s : String) : String :=
  String.mk (s.data.map fun c => if c == '/' then '_' else c)

/- ### Field coercion library
(`transform_transactions.py` / `transform_f2.py`, identical in both) -/

/-- Decimal value of a digit list (most significant first). -/
def digitsToNat (cs : List Char) : Nat := cs.foldl (fun a c => a * 10 + digitVal c) 0

/-- Model of Python `int(v)` on already-trimmed text: optional sign followed
by one or more ASCII digits (underscore grouping is not modelled; no claim
depends on it). -/
def pyIntParse (v : String) : Option Int :=
  let core := fun (cs : List Char) (neg : Bool) =>
    if cs.isEmpty || !cs.all Char.isDigit then none
    else some (if neg then -(digitsToNat cs : Int) else (digitsToNat cs : Int))
  match v.data with
  | '-' :: rest => core rest true
  | '+' :: rest => core rest false
  | cs => core cs false

/-- `_to_int_string`: trim; empty -> ""; parse base-10 and re-render;
parse failure -> "". -/
def to_int_string (value : String) : String :=
  let v := pyStrip value
  if v = "" then ""
  else
    match pyIntParse v with
    | some n => toString n
    | none => ""

/-- One or more ASCII digits. -/
def decDigits1 (s : String) : Bool := !s.data.isEmpty && s.data.all Char.isDigit

/-- Mantissa shape of a Python float literal: `digits`, `digits.digits?`,
or `.digits`. -/
def pyMantissaShaped (s : String) : Bool :=
  match s.data with
  | [] => false
  | cs =>
    let intPart := cs.takeWhile (fun c => c != '.')
    let rest := cs.dropWhile (fun c => c != '.')
    match rest with
    | [] => cs.all Char.isDigit
    | _ :: frac =>
      (!intPart.isEmpty || !frac.isEmpty) && intPart.all Char.isDigit &&
        frac.all Char.isDigit

/-- Exponent shape: optional sign then one or more digits. -/
def pyExpShaped (s : String) : Bool :=
  match s.data with
  | '+' :: rest => !rest.isEmpty && rest.all Char.isDigit
  | '-' :: rest => !rest.isEmpty && rest.all Char.isDigit
  | cs => !cs.isEmpty && cs.all Char.isDigit

/-- Shape of a text accepted by Python `float(v)` (after trimming):
optional sign, then `inf`/`infinity`/`nan` or a decimal mantissa with an
optional exponent. -/
def pyFloatShaped (v : String) : Bool :=
  let body :=
    match v.data with
    | '+' :: rest => String.mk rest
    | '-' :: rest => String.mk rest
    | _ => v
  let lower := lowerStr body
  if lower = "inf" || lower = "infinity" || lower = "nan" then true
  else
    let mant := String.mk (lower.data.takeWhile (fun c => c != 'e'))
    let rest := lower.data.dropWhile (fun c => c != 'e')
    match rest with
    | [] => pyMantissaShaped mant
    | _ :: expPart => pyMantissaShaped mant && pyExpShaped (String.mk expPart)

/-- `_to_float_string`: trim; empty -> ""; `str(float(v))`; parse failure
-> "".  The IEEE-754 value round-trip `str(float(v))` is outside the
embedding: the model keeps the trimmed literal when it has the shape Python
`float` accepts.  No claim in this development depends on the rendered
float text. -/
def to_float_string (value : String) : String :=
  let v := pyStrip value
  if v = "" then ""
  else if pyFloatShaped v then v else ""

/-- `_to_bool_string_is_laundering`: "true" exactly when the trimmed input
is the literal "1", otherwise "false"; never fails. -/
def to_bool_string_is_laundering (value : String) : String :=
  if pyStrip value = "1" then "true" else "false"

/- ### Calendar arithmetic used by `datetime` validation -/

/-- Gregorian leap year, as validated by Python `datetime`. -/
def isLeap (y : Nat) : Bool := (y % 4 == 0 && y % 100 != 0) || y % 400 == 0

/-- Number of days of month `m` of year `y`. -/
def daysInMonth (y m : Nat) : Nat :=
  if m = 2 then (if isLeap y then 29 else 28)
  else if m = 4 ∨ m = 6 ∨ m = 9 ∨ m = 11 then 30
  else 31

/-- Success of `datetime.strptime(s, "%Y/%m/%d")` on a 10-character string:
the pattern can only consume exactly 10 characters with the layout
`dddd/dd/dd`, the month in 01..12, the day in 01..31, and the constructed
`datetime` validates the day against the month and requires year ≥ 1. -/
def parsesYMD (s : String) : Bool :=
  match s.data with
  | [y1, y2, y3, y4, s1, m1, m2, s2, d1, d2] =>
    (y1.isDigit && y2.isDigit && y3.isDigit && y4.isDigit &&
      s1 == '/' && m1.isDigit && m2.isDigit && s2 == '/' &&
      d1.isDigit && d2.isDigit) &&
    (let y := ((digitVal y1 * 10 + digitVal y2) * 10 + digitVal y3) * 10 + digitVal y4
     let m := digitVal m1 * 10 + digitVal m2
     let d := digitVal d1 * 10 + digitVal d2
     decide (1 ≤ y) && decide (1 ≤ m) && decide (m ≤ 12) &&
       decide (1 ≤ d) && decide (d ≤ daysInMonth y m))
  | _ => false

/-- `_day_key_from_timestamp` (transform_transactions.py): trim; fewer than
10 characters -> "unknown"; first 10 characters must parse as `YYYY/MM/DD`,
otherwise "unknown"; on success the separators become underscores. -/
def day_key_from_timestamp (timestamp_value : String) : String :=
  let value := pyStrip timestamp_value
  if value.length < 10 then "unknown"
  else
    let date_part := String.mk (value.data.take 10)
    if parsesYMD date_part then replaceSlashes date_part else "unknown"

/-- Partition-key selection inside `transform` (transform_transactions.py):
the day key when `--split-by-date` is on, the constant key `"all"` otherwise. -/
def day_key_selected (timestamp : String) (split_by_date : Bool) : String :=
  if split_by_date then day_key_from_timestamp timestamp else "all"

/- ### `_admin_header_for_format`
(transform_transactions.py / transform_accounts.py, identical in both) -/

/-- `_admin_header_for_format`: identity for any non-parquet format; for
parquet, a header containing ":ID(" keeps only its part before ":ID("
followed by ":ID", a header starting with ":START_ID(" becomes
":START_ID", one starting with ":END_ID(" becomes ":END_ID", and any other
header is unchanged. -/
def admin_header_for_format (header output_format : String) : String :=
  if output_format != "parquet" then header
  else if containsSub header ":ID(" then beforeFirst header ":ID(" ++ ":ID"
  else if strStartsWith header ":START_ID(" then ":START_ID"
  else if strStartsWith header ":END_ID(" then ":END_ID"
  else header

/-- The columnar-encoding column name as the specification states it: the
cases of claim C8, read in the order they are written (first matching case
applies). -/
def columnarHeaderSpec (header : String) : String :=
  if containsSub header ":ID(" then beforeFirst header ":ID(" ++ ":ID"
  else if strStartsWith header ":START_ID(" then ":START_ID"
  else if strStartsWith header ":END_ID(" then ":END_ID"
  else header

/- ### `_parse_timestamp_date`
(`datetime.strptime(value, "%Y/%m/%d %H:%M")` re-rendered as ISO text) -/

/-- Exactly four digits, returning their value and the remaining characters. -/
def parse4Digits : List Char → Option (Nat × List Char)
  | a :: b :: c :: d :: rest =>
    if a.isDigit && b.isDigit && c.isDigit && d.isDigit then
      some (((digitVal a * 10 + digitVal b) * 10 + digitVal c) * 10 + digitVal d, rest)
    else none
  | _ => none

/-- One literal character. -/
def parseLit (ch : Char) : List Char → Option (List Char)
  | c :: rest => if c == ch then some rest else none
  | [] => none

/-- `%m` of `strptime`: `1[0-2] | 0[1-9] | [1-9]`, alternatives in order. -/
def parseMonth : List Char → Option (Nat × List Char)
  | [] => none
  | c1 :: rest1 =>
    match rest1 with
    | c2 :: rest2 =>
      if c1 == '1' && (c2 == '0' || c2 == '1' || c2 == '2') then
        some (10 + digitVal c2, rest2)
      else if c1 == '0' && c2.isDigit && c2 != '0' then some (digitVal c2, rest2)
      else if c1.isDigit && c1 != '0' then some (digitVal c1, rest1)
      else none
    | [] => if c1.isDigit && c1 != '0' then some (digitVal c1, []) else none

/-- `%d` of `strptime`: `3[01] | [12][0-9] | 0[1-9] | [1-9]`. -/
def parseDay : List Char → Option (Nat × List Char)
  | [] => none
  | c1 :: rest1 =>
    match rest1 with
    | c2 :: rest2 =>
      if c1 == '3' && (c2 == '0' || c2 == '1') then some (30 + digitVal c2, rest2)
      else if (c1 == '1' || c1 == '2') && c2.isDigit then
        some (digitVal c1 * 10 + digitVal c2, rest2)
      else if c1 == '0' && c2.isDigit && c2 != '0' then some (digitVal c2, rest2)
      else if c1.isDigit && c1 != '0' then some (digitVal c1, rest1)
      else none
    | [] => if c1.isDigit && c1 != '0' then some (digitVal c1, []) else none

/-- `%H` of `strptime`: `2[0-3] | [0-1][0-9] | [0-9]`. -/
def parseHour : List Char → Option (Nat × List Char)
  | [] => none
  | c1 :: rest1 =>
    match rest1 with
    | c2 :: rest2 =>
      if c1 == '2' && (c2 == '0' || c2 == '1' || c2 == '2' || c2 == '3') then
        some (20 + digitVal c2, rest2)
      else if (c1 == '0' || c1 == '1') && c2.isDigit then
        some (digitVal c1 * 10 + digitVal c2, rest2)
      else if c1.isDigit then some (digitVal c1, rest1)
      else none
    | [] => if c1.isDigit then some (digitVal c1, []) else none

/-- `%M` of `strptime`: `[0-5][0-9] | [0-9]`. -/
def parseMinute : List Char → Option (Nat × List Char)
  | [] => none
  | c1 :: rest1 =>
    match rest1 with
    | c2 :: rest2 =>
      if c1.isDigit && digitVal c1 ≤ 5 && c2.isDigit then
        some (digitVal c1 * 10 + digitVal c2, rest2)
      else if c1.isDigit then some (digitVal c1, rest1)
      else none
    | [] => if c1.isDigit then some (digitVal c1, []) else none

/-- A blank in the `strptime` format: one or more whitespace characters. -/
def parseWs : List Char → Option (List Char)
  | c :: rest => if c.isWhitespace then some (rest.dropWhile Char.isWhitespace) else none
  | [] => none

/-- Full match of `"%Y/%m/%d %H:%M"` against a character list, including the
`datetime` range validation (year ≥ 1, day within the month); the whole
input must be consumed. -/
def matchYmdHm (cs : List Char) : Option (Nat × Nat × Nat × Nat × Nat) :=
  match parse4Digits cs with
  | none => none
  | some (y, cs) =>
    match parseLit '/' cs with
    | none => none
    | some cs =>
      match parseMonth cs with
      | none => none
      | some (mo, cs) =>
        match parseLit '/' cs with
        | none => none
        | some cs =>
          match parseDay cs with
          | none => none
          | some (d, cs) =>
            match parseWs cs with
            | none => none
            | some cs =>
              match parseHour cs with
              | none => none
              | some (h, cs) =>
                match parseLit ':' cs with
                | none => none
                | some cs =>
                  match parseMinute cs with
                  | none => none
                  | some (mi, cs) =>
                    if cs.isEmpty && decide (1 ≤ y) && decide (d ≤ daysInMonth y mo)
                    then some (y, mo, d, h, mi)
                    else none

/-- Zero-pad to two digits. -/
def pad2 (n : Nat) : String := if n < 10 then "0" ++ toString n else toString n

/-- Zero-pad to four digits (as `strftime("%Y")`). -/
def pad4 (n : Nat) : String :=
  if n < 10 then "000" ++ toString n
  else if n < 100 then "00" ++ toString n
  else if n < 1000 then "0" ++ toString n
  else toString n

/-- `_parse_timestamp_date`: trim; empty -> ""; parse `"%Y/%m/%d %H:%M"` and
render `"%Y-%m-%dT%H:%M:%S"`; parse failure -> "". -/
def parse_timestamp_date (timestamp_value : String) : String :=
  let value := pyStrip timestamp_value
  if value = "" then ""
  else
    match matchYmdHm value.data with
    | some (y, mo, d, h, mi) =>
      pad4 y ++ "-" ++ pad2 mo ++ "-" ++ pad2 d ++ "T" ++ pad2 h ++ ":" ++ pad2 mi ++ ":00"
    | none => ""

/- ### Row-encoding (CSV) sink creation
(`_open_csv_writer`; the data_import scripts and transform_f2.py differ) -/

/-- Double every `"` as the `csv` module's quoting does. -/
def doubleQuotes : List Char → List Char
  | [] => []
  | c :: cs => if c == '"' then '"' :: '"' :: doubleQuotes cs else c :: doubleQuotes cs

/-- One CSV field under the default QUOTE_MINIMAL dialect. -/
def csvQuoteField (s : String) : String :=
  if s.data.any (fun c => c == ',' || c == '"' || c == '\n' || c == '\r') then
    "\"" ++ String.mk (doubleQuotes s.data) ++ "\""
  else s

/-- Comma-join of a list of texts. -/
def joinComma : List String → String
  | [] => ""
  | [x] => x
  | x :: xs => x ++ "," ++ joinComma xs

/-- One physical CSV line for the given cells. -/
def csvLine (cells : List String) : String := joinComma (cells.map csvQuoteField)

/-- A row-encoding sink: its declared field names and the physical lines
written to the file so far, in order. -/
structure CsvSink where
  fieldnames : List String
  lines : List String
deriving DecidableEq, Repr

/-- `_open_csv_writer` of transform_transactions.py and
transform_accounts.py: opens (creates) the file and constructs a
`csv.DictWriter`; `writeheader()` is never called, so the freshly created
file contains no line at all. -/
def open_csv_writer_data_import (fieldnames : List String) : CsvSink :=
  { fieldnames := fieldnames, lines := [] }

/-- `_open_csv_writer` of transform_f2.py: additionally calls
`writer.writeheader()`, so the freshly created file starts with the header
line listing the field names. -/
def open_csv_writer_f2 (fieldnames : List String) : CsvSink :=
  { fieldnames := fieldnames, lines := [csvLine fieldnames] }

/- ### Columnar-encoding sink: `_ParquetDictWriter`
(transform_transactions.py / transform_accounts.py, identical in both) -/

/-- Physical column types of the parquet schema. -/
inductive PqType where
  | string
  | int64
  | float64
  | boolean
deriving DecidableEq, Repr

/-- One materialized parquet block: its schema and its rows (row-major;
each row lists the cell texts in field order). -/
structure PqTable where
  schema : List (String × PqType)
  rows : List (List String)
deriving DecidableEq, Repr

/-- State of a `_ParquetDictWriter`: the declared field names, the chunk
size, the buffered rows, the blocks already written to the file, whether
the underlying `ParquetWriter` was created, and whether `close()` ran. -/
structure PqWriterState where
  fieldnames : List String
  chunkSize : Nat
  buffer : List (List String)
  written : List PqTable
  writerCreated : Bool
  closed : Bool
deriving DecidableEq, Repr

/-- The all-string schema `_ParquetDictWriter` declares for its fields. -/
def pqSchema (fieldnames : List String) : List (String × PqType) :=
  fieldnames.map fun n => (n, PqType.string)

/-- `_ParquetDictWriter.__init__` (chunk size clamped to at least 1). -/
def pqInit (fieldnames : List String) (chunk_size : Nat) : PqWriterState :=
  { fieldnames := fieldnames
    chunkSize := max chunk_size 1
    buffer := []
    written := []
    writerCreated := false
    closed := false }

/-- The normalization `writerow` applies: for every declared field, the
supplied value or `""` when the key is missing or empty. -/
def normalizeRow (fieldnames : List String) (row : List (String × String)) : List String :=
  fieldnames.map fun n =>
    match row.lookup n with
    | some v => if v = "" then "" else v
    | none => ""

/-- `_ParquetDictWriter._flush`: nothing on an empty buffer; otherwise
materialize the buffer as an all-string block, create the file writer if
needed, append the block, and clear the buffer. -/
def pqFlush (st : PqWriterState) : PqWriterState :=
  if st.buffer = [] then st
  else
    { st with
      written := st.written ++ [{ schema := pqSchema st.fieldnames, rows := st.buffer }]
      buffer := []
      writerCreated := true }

/-- `_ParquetDictWriter.writerow`: normalize, buffer, flush at the chunk
size. -/
def pqWriterow (st : PqWriterState) (row : List (String × String)) : PqWriterState :=
  let st' := { st with buffer := st.buffer ++ [normalizeRow st.fieldnames row] }
  if st'.chunkSize ≤ st'.buffer.length then pqFlush st' else st'

/-- `_ParquetDictWriter.close`: idempotent; flushes a non-empty buffer;
writes an explicitly empty all-string block when no row was ever flushed;
closes the file. -/
def pqClose (st : PqWriterState) : PqWriterState :=
  if st.closed then st
  else if st.buffer ≠ [] then { pqFlush st with closed := true }
  else if st.writerCreated = false then
    { st with
      written := st.written ++ [{ schema := pqSchema st.fieldnames, rows := [] }]
      writerCreated := true
      closed := true }
  else { st with closed := true }

/-- Feeding a sequence of `writerow` calls to a `_ParquetDictWriter`. -/
def pqFeed (st : PqWriterState) (rows : List (List (String × String))) : PqWriterState :=
  rows.foldl pqWriterow st

/- ### Bulk format converter (csv_to_parquet_for_neo4j_import.py) -/

/-- `_is_id_column`: Neo4j identifier-role header conventions. -/
def is_id_column (col_name : String) : Bool :=
  containsSub col_name ":ID(" || strStartsWith col_name ":START_ID" ||
    strStartsWith col_name ":END_ID"

/-- Target of the suffix-driven coercion. -/
inductive TargetType where
  | int
  | float
  | bool
deriving DecidableEq, Repr

/-- `_infer_target_type`: identifier columns are never coerced; otherwise
the lower-cased name's `:int` / `:float` / `:boolean` suffix selects the
target; anything else (datetime included) stays text. -/
def infer_target_type (col_name : String) : Option TargetType :=
  if is_id_column col_name then none
  else
    let lower := lowerStr col_name
    if strEndsWith lower ":int" then some TargetType.int
    else if strEndsWith lower ":float" then some TargetType.float
    else if strEndsWith lower ":boolean" then some TargetType.bool
    else none

/-- A coerced output column of `_coerce_table`.  The float cast is kept at
the source-text level: IEEE-754 values are outside the embedding and no
claim depends on them. -/
inductive CoColumn where
  | strCol (values : List (Option String))
  | intCol (values : List (Option Int))
  | floatCol (sources : List (Option String))
  | boolCol (values : List (Option Bool))
deriving DecidableEq, Repr

/-- `pc.if_else(pc.equal(as_str, ""), None, as_str)`: empty strings become
null. -/
def cleanedNulls (values : List (Option String)) : List (Option String) :=
  values.map fun v =>
    match v with
    | some s => if s = "" then none else some s
    | none => none

/-- The boolean cast of `_coerce_table`: lower-case `"true"`/`"false"`
literals, anything else null. -/
def boolCast (v : Option String) : Option Bool :=
  match v with
  | none => none
  | some s =>
    let lowered := lowerStr s
    if lowered = "true" then some true
    else if lowered = "false" then some false
    else none

/-- `_coerce_table` on one column: identifier and suffix-free columns are
appended unchanged; `:int` / `:float` / `:boolean` columns are cleaned
(empty -> null) and cast. -/
def coerce_column (name : String) (values : List (Option String)) : CoColumn :=
  match infer_target_type name with
  | none => CoColumn.strCol values
  | some TargetType.int =>
    CoColumn.intCol ((cleanedNulls values).map fun v => v.bind pyIntParse)
  | some TargetType.float => CoColumn.floatCol (cleanedNulls values)
  | some TargetType.bool => CoColumn.boolCol ((cleanedNulls values).map boolCast)

/-- `_coerce_table` on a whole block: every column is mapped by name. -/
def coerce_table (table : List (String × List (Option String))) :
    List (String × CoColumn) :=
  table.map fun col => (col.1, coerce_column col.1 col.2)

/-- Reading a coerced column back as text (identifier columns are
`strCol`, so this recovers their cell values). -/
def coColumnText : CoColumn → Option (List (Option String))
  | CoColumn.strCol values => some values
  | _ => none

/- ### Accounts transformation (transform_accounts.py) -/

/-- The fixed input header of the accounts file. -/
def ACCOUNTS_EXPECTED_HEADERS : List String :=
  ["Bank Name", "Bank ID", "Account Number", "Entity ID", "Entity Name"]

/-- One raw input row of the accounts file (missing cells are already the
empty text, as `row.get(...) or ""` yields). -/
structure AccRow where
  bankName : String
  bankId : String
  accountNumber : String
  entityId : String
  entityName : String
deriving DecidableEq, Repr

/-- The required-identifier check: Bank ID, Account Number and Entity ID
must all be non-empty after trimming. -/
def accRowValid (row : AccRow) : Bool :=
  !(pyStrip row.bankId = "" || pyStrip row.accountNumber = "" || pyStrip row.entityId = "")

/-- Mutable state of one accounts `transform` run: the three dedup sets and
the rows written to the five output files, in write order. -/
structure AccState where
  seenBankIds : List String
  seenEntityIds : List String
  seenAccountNumbers : List String
  bankRows : List (String × String)
  entityRows : List (String × String)
  accountRows : List String
  entityOwnsAccountRows : List (String × String)
  accountPartOfBankRows : List (String × String)
deriving DecidableEq, Repr

/-- The state at the start of a run. -/
def accInit : AccState :=
  { seenBankIds := []
    seenEntityIds := []
    seenAccountNumbers := []
    bankRows := []
    entityRows := []
    accountRows := []
    entityOwnsAccountRows := []
    accountPartOfBankRows := [] }

/-- The body of the row loop of `transform` (transform_accounts.py): skip
rows failing the required-identifier check; emit each bank / entity /
account node on first sight of its identifier; always emit both
relationship rows. -/
def accStep (st : AccState) (row : AccRow) : AccState :=
  let bank_name := pyStrip row.bankName
  let bank_id := pyStrip row.bankId
  let account_number := pyStrip row.accountNumber
  let entity_id := pyStrip row.entityId
  let entity_name := pyStrip row.entityName
  if accRowValid row then
    let st :=
      if st.seenBankIds.contains bank_id then st
      else
        { st with
          seenBankIds := bank_id :: st.seenBankIds
          bankRows := st.bankRows ++ [(bank_id, bank_name)] }
    let st :=
      if st.seenEntityIds.contains entity_id then st
      else
        { st with
          seenEntityIds := entity_id :: st.seenEntityIds
          entityRows := st.entityRows ++ [(entity_id, entity_name)] }
    let st :=
      if st.seenAccountNumbers.contains account_number then st
      else
        { st with
          seenAccountNumbers := account_number :: st.seenAccountNumbers
          accountRows := st.accountRows ++ [account_number] }
    { st with
      entityOwnsAccountRows := st.entityOwnsAccountRows ++ [(entity_id, account_number)]
      accountPartOfBankRows := st.accountPartOfBankRows ++ [(account_number, bank_id)] }
  else st

/-- The row loop of the accounts `transform` over the whole input stream. -/
def accRun (rows : List AccRow) : AccState := rows.foldl accStep accInit

/-- The five output files the accounts `transform` opens before reading the
input (in creation order). -/
def accRoleFiles : List String :=
  ["banks", "entities", "accounts", "account_part_of_bank", "entity_owns_account"]

/-- The whole accounts `transform`: the five sinks are opened first, then
the header is validated (a mismatch reports the expected and the actual
headers and aborts), then the rows are processed. -/
structure AccTop where
  createdBeforeValidate : List String
  result : Except (List String × List String) AccState
deriving Repr

/-- `transform` of transform_accounts.py, given the input header and rows. -/
def transformAccounts (header : List String) (rows : List AccRow) : AccTop :=
  { createdBeforeValidate := accRoleFiles
    result :=
      if header = ACCOUNTS_EXPECTED_HEADERS then Except.ok (accRun rows)
      else Except.error (ACCOUNTS_EXPECTED_HEADERS, header) }

/- ### First-occurrence deduplication, as a pure function of the
identifier sequence -/

/-- Keep the first occurrence of every value, given the values already
seen. -/
def dedupFirstAux (seen : List String) : List String → List String
  | [] => []
  | x :: xs =>
    if seen.contains x then dedupFirstAux seen xs
    else x :: dedupFirstAux (x :: seen) xs

/-- First-occurrence deduplication: a pure function of the identifier
values in input order. -/
def dedupFirst (ids : List String) : List String := dedupFirstAux [] ids

/- ### Transactions transformation (transform_transactions.py) -/

/-- The fixed input header of the transactions file. -/
def TX_EXPECTED_HEADERS : List String :=
  ["Timestamp", "From Bank", "FromAccount", "To Bank", "ToAccount",
   "Amount Received", "Receiving Currency", "Amount Paid", "Payment Currency",
   "Payment Format", "Is Laundering"]

/-- One raw input row of the transactions file. -/
structure TxRow where
  timestamp : String
  fromBank : String
  fromAccount : String
  toBank : String
  toAccount : String
  amountReceived : String
  receivingCurrency : String
  amountPaid : String
  paymentCurrency : String
  paymentFormat : String
  isLaundering : String
deriving DecidableEq, Repr

/-- One emitted transaction node row (the thirteen output fields). -/
structure TxNodeRow where
  transaction_id : String
  timestamp : String
  timestamp_date : String
  from_bank : String
  from_account : String
  to_bank : String
  to_aAccount : String
  amount_received : String
  receiving_currency : String
  amount_paid : String
  payment_currency : String
  payment_format : String
  is_laundering : String
deriving DecidableEq, Repr

/-- The transaction node row written for one input row, with the given
synthetic identifier text. -/
def mkTxNodeRow (tx_id_str : String) (row : TxRow) : TxNodeRow :=
  { transaction_id := tx_id_str
    timestamp := pyStrip row.timestamp
    timestamp_date := parse_timestamp_date (pyStrip row.timestamp)
    from_bank := to_int_string row.fromBank
    from_account := pyStrip row.fromAccount
    to_bank := to_int_string row.toBank
    to_aAccount := pyStrip row.toAccount
    amount_received := to_float_string row.amountReceived
    receiving_currency := pyStrip row.receivingCurrency
    amount_paid := to_float_string row.amountPaid
    payment_currency := pyStrip row.paymentCurrency
    payment_format := pyStrip row.paymentFormat
    is_laundering := to_bool_string_is_laundering row.isLaundering }

/-- The rows the transactions `transform` writes, each tagged with the
partition (day) key of the sink it goes to, in write order. -/
structure TxOut where
  txRows : List (String × TxNodeRow)
  fromRows : List (String × (String × String))
  toRows : List (String × (String × String))
deriving DecidableEq, Repr

/-- The row loop of `transform` (transform_transactions.py), carrying the
`enumerate` counter: every row writes one transaction node row; the
from / to relationship rows are written only when the account text is
non-empty. -/
def txProcess (split_by_date : Bool) : Nat → List TxRow → TxOut
  | _, [] => { txRows := [], fromRows := [], toRows := [] }
  | tx_id, row :: rest =>
    let timestamp := pyStrip row.timestamp
    let day_key := if split_by_date then day_key_from_timestamp timestamp else "all"
    let from_account := pyStrip row.fromAccount
    let to_account := pyStrip row.toAccount
    let tx_id_str := toString tx_id
    let tail := txProcess split_by_date (tx_id + 1) rest
    { txRows := (day_key, mkTxNodeRow tx_id_str row) :: tail.txRows
      fromRows :=
        (if from_account ≠ "" then [(day_key, (from_account, tx_id_str))] else []) ++
          tail.fromRows
      toRows :=
        (if to_account ≠ "" then [(day_key, (tx_id_str, to_account))] else []) ++
          tail.toRows }

/-- The three output files the transactions `transform` opens before
reading the input when date-splitting is off; with date-splitting on, every
file is created lazily per day key, after header validation. -/
def txRoleFiles (split_by_date : Bool) : List String :=
  if split_by_date then []
  else ["transactions", "transactions_from", "transactions_to"]

/-- The whole transactions `transform`: sinks for the unsplit mode are
opened first, then the header is validated (a mismatch reports the expected
and the actual headers and aborts), then the rows are processed with the
`enumerate` counter starting at 2. -/
structure TxTop where
  createdBeforeValidate : List String
  result : Except (List String × List String) TxOut
deriving Repr

/-- `transform` of transform_transactions.py, given the input header, the
date-splitting flag and the rows. -/
def transformTransactions (header : List String) (split_by_date : Bool)
    (rows : List TxRow) : TxTop :=
  { createdBeforeValidate := txRoleFiles split_by_date
    result :=
      if header = TX_EXPECTED_HEADERS then
        Except.ok (txProcess split_by_date 2 rows)
      else Except.error (TX_EXPECTED_HEADERS, header) }

/- ### Characterization helpers for the accounts run -/

/-- Bank identifiers seen after processing the rows, starting from `seen`. -/
def accSeenBanksAux (seen : List String) : List AccRow → List String
  | [] => seen
  | row :: rest =>
    if accRowValid row then
      if seen.contains (pyStrip row.bankId) then accSeenBanksAux seen rest
      else accSeenBanksAux (pyStrip row.bankId :: seen) rest
    else accSeenBanksAux seen rest

/-- Bank node rows emitted for the rows, starting from `seen`. -/
def accBankNodesAux (seen : List String) : List AccRow → List (String × String)
  | [] => []
  | row :: rest =>
    if accRowValid row then
      if seen.contains (pyStrip row.bankId) then accBankNodesAux seen rest
      else
        (pyStrip row.bankId, pyStrip row.bankName) ::
          accBankNodesAux (pyStrip row.bankId :: seen) rest
    else accBankNodesAux seen rest

/-- Entity identifiers seen after processing the rows, starting from `seen`. -/
def accSeenEntitiesAux (seen : List String) : List AccRow → List String
  | [] => seen
  | row :: rest =>
    if accRowValid row then
      if seen.contains (pyStrip row.entityId) then accSeenEntitiesAux seen rest
      else accSeenEntitiesAux (pyStrip row.entityId :: seen) rest
    else accSeenEntitiesAux seen rest

/-- Entity node rows emitted for the rows, starting from `seen`. -/
def accEntityNodesAux (seen : List String) : List AccRow → List (String × String)
  | [] => []
  | row :: rest =>
    if accRowValid row then
      if seen.contains (pyStrip row.entityId) then accEntityNodesAux seen rest
      else
        (pyStrip row.entityId, pyStrip row.entityName) ::
          accEntityNodesAux (pyStrip row.entityId :: seen) rest
    else accEntityNodesAux seen rest

/-- Account numbers seen after processing the rows, starting from `seen`. -/
def accSeenAccountsAux (seen : List String) : List AccRow → List String
  | [] => seen
  | row :: rest =>
    if accRowValid row then
      if seen.contains (pyStrip row.accountNumber) then accSeenAccountsAux seen rest
      else accSeenAccountsAux (pyStrip row.accountNumber :: seen) rest
    else accSeenAccountsAux seen rest

/-- Account node rows emitted for the rows, starting from `seen`. -/
def accAccountNodesAux (seen : List String) : List AccRow → List String
  | [] => []
  | row :: rest =>
    if accRowValid row then
      if seen.contains (pyStrip row.accountNumber) then accAccountNodesAux seen rest
      else
        pyStrip row.accountNumber :: accAccountNodesAux (pyStrip row.accountNumber :: seen) rest
    else accAccountNodesAux seen rest

/- ### Invariant helpers for the parquet writer -/

/-- All rows of all blocks written to the file so far, in order. -/
def pqJoinRows (st : PqWriterState) : List (List String) :=
  (st.written.map PqTable.rows).flatten

/-- Invariant of an open `_ParquetDictWriter`: field names fixed, not yet
closed, rows written plus rows buffered are exactly the rows received, and
every block written so far carries the all-string declared schema. -/
def PqInv (fn : List String) (acc : List (List String)) (st : PqWriterState) : Prop :=
  st.fieldnames = fn ∧ st.closed = false ∧ pqJoinRows st ++ st.buffer = acc ∧
    ∀ t ∈ st.written, t.schema = pqSchema fn

/- ### Theorems -/

/-- Claim C5 (code bug): creating a row-encoding (CSV) sink is supposed to
write a header line listing the identifier-tagged column names before any
data row.  `_open_csv_writer` of transform_f2.py does exactly that, but the
`_open_csv_writer` shared by transform_transactions.py and
transform_accounts.py constructs the `csv.DictWriter` without ever calling
`writeheader()`: the freshly created file holds no header line at all, so
the claim fails for every sink those two transformations create. -/
theorem c5_csv_header_divergence :
    (open_csv_writer_data_import [":START_ID(Account)", ":END_ID(Transaction)"]).lines = [] ∧
    (open_csv_writer_f2 [":START_ID(Transaction)", ":END_ID(Account)"]).lines =
      [":START_ID(Transaction),:END_ID(Account)"] := by
  exact ⟨rfl, by decide⟩

/-- Claim C8: for the columnar (parquet) encoding, the output column name
is the pure function of the row-encoding name stated by the specification
(cases read in order: a name containing ":ID(" keeps its part before
":ID(" plus ":ID"; a name starting with ":START_ID(" becomes ":START_ID";
a name starting with ":END_ID(" becomes ":END_ID"; every other name is
unchanged), and for the row (CSV) encoding every name is unchanged;
checked on the concrete field names the transformations use. -/
theorem c8_header_mapping (header : String) :
    admin_header_for_format header "parquet" = columnarHeaderSpec header ∧
    admin_header_for_format header "csv" = header ∧
    admin_header_for_format "bank_id:ID(Bank)\x7blabel:Bank\x7d" "parquet" = "bank_id:ID" ∧
    admin_header_for_format ":START_ID(Account)" "parquet" = ":START_ID" ∧
    admin_header_for_format ":END_ID(Transaction)" "parquet" = ":END_ID" ∧
    admin_header_for_format "timestamp_date:datetime" "parquet" = "timestamp_date:datetime" ∧
    admin_header_for_format "transaction_id:ID(Transaction)\x7blabel:Transaction\x7d" "csv" =
      "transaction_id:ID(Transaction)\x7blabel:Transaction\x7d" := by
  refine ⟨rfl, rfl, by decide, by decide, by decide, by decide, rfl⟩

/-- Claim C10 (counterexample): the flag coercion does not map every input
other than the literal "1" to "false" — the whitespace-padded text " 1" is
not the literal "1", yet it maps to "true" because the code trims first. -/
theorem c10_counterexample :
    to_bool_string_is_laundering " 1" = "true" ∧ (" 1" : String) ≠ "1" := by
  exact ⟨by decide, by decide⟩

/-- Claim C10 amended: the flag coercion is total (its result is always
"true" or "false", it never fails) and yields "true" exactly when the
whitespace-trimmed input is the literal "1" — so "1" maps to "true" and
"0", the empty string and unparsable text map to "false". -/
theorem c10_amended (value : String) :
    (to_bool_string_is_laundering value = "true" ∨
      to_bool_string_is_laundering value = "false") ∧
    (to_bool_string_is_laundering value = "true" ↔ pyStrip value = "1") ∧
    to_bool_string_is_laundering "1" = "true" ∧
    to_bool_string_is_laundering "0" = "false" ∧
    to_bool_string_is_laundering "" = "false" := by
  refine ⟨?_, ?_, by decide, by decide, by decide⟩ <;>
    · unfold to_bool_string_is_laundering
      by_cases h : pyStrip value = "1" <;> simp [h]

/-- Claim C9: `_coerce_table` copies every identifier-role column (name
containing ":ID(" or starting with ":START_ID" or ":END_ID") through
verbatim as a string column — reading it back as text recovers exactly the
source values, empty cells included — and column names survive the
conversion unchanged. -/
theorem c9_id_columns_verbatim (name : String) (values : List (Option String))
    (table : List (String × List (Option String))) (h : is_id_column name = true) :
    coerce_column name values = CoColumn.strCol values ∧
    coColumnText (coerce_column name values) = some values ∧
    (coerce_table table).map Prod.fst = table.map Prod.fst := by
  refine ⟨?_, ?_, ?_⟩
  · simp [coerce_column, infer_target_type, h]
  · simp [coerce_column, infer_target_type, h, coColumnText]
  · simp [coerce_table]

/-- Witness for C9 at a concrete identifier column. -/
theorem c9_id_columns_verbatim_witness :
    is_id_column ":START_ID(Account)" = true ∧
    coerce_column ":START_ID(Account)" [some "A1", none, some ""] =
      CoColumn.strCol [some "A1", none, some ""] := by
  exact ⟨by decide,
    (c9_id_columns_verbatim ":START_ID(Account)" [some "A1", none, some ""] [] (by decide)).1⟩

/-- Claim C6 (counterexample): the derivation is claimed to return
"unknown" whenever the first 10 characters of the input fail to parse as
`YYYY/MM/DD`.  The input " 2022/01/15 08:30" has at least 10 characters and
its first 10 characters " 2022/01/1" do not parse (leading blank), yet with
partitioning enabled the code returns "2022_01_15", because it trims
whitespace before taking the 10-character date part. -/
theorem c6_counterexample :
    10 ≤ (" 2022/01/15 08:30" : String).length ∧
    parsesYMD (String.mk ((" 2022/01/15 08:30" : String).data.take 10)) = false ∧
    day_key_selected " 2022/01/15 08:30" true = "2022_01_15" ∧
    ("2022_01_15" : String) ≠ "unknown" := by
  exact ⟨by decide, by decide, by decide, by decide⟩

/-- Claim C6 amended: the derivation is a pure function of the raw
timestamp text and the partitioning flag; disabled partitioning yields the
constant key "all"; with partitioning enabled the input is first trimmed of
surrounding whitespace, then "unknown" is returned when the trimmed text
has fewer than 10 characters or its first 10 characters fail to parse as
`YYYY/MM/DD`, and otherwise those 10 characters with "/" replaced by "_". -/
theorem c6_day_key_amended (ts : String) :
    day_key_selected ts false = "all" ∧
    day_key_selected ts true = day_key_from_timestamp ts ∧
    ((pyStrip ts).length < 10 → day_key_from_timestamp ts = "unknown") ∧
    (10 ≤ (pyStrip ts).length →
      parsesYMD (String.mk ((pyStrip ts).data.take 10)) = false →
      day_key_from_timestamp ts = "unknown") ∧
    (10 ≤ (pyStrip ts).length →
      parsesYMD (String.mk ((pyStrip ts).data.take 10)) = true →
      day_key_from_timestamp ts = replaceSlashes (String.mk ((pyStrip ts).data.take 10))) := by
  refine ⟨rfl, rfl, ?_, ?_, ?_⟩
  · intro h
    simp only [day_key_from_timestamp]
    rw [if_pos h]
  · intro h1 h2
    simp only [day_key_from_timestamp]
    rw [if_neg (by omega), if_neg (by simp [h2])]
  · intro h1 h2
    simp only [day_key_from_timestamp]
    rw [if_neg (by omega), if_pos h2]

/-- Witness for the amended C6 on the specification's own examples. -/
theorem c6_day_key_amended_witness :
    day_key_from_timestamp "2022/01/15 08:30" = "2022_01_15" ∧
    day_key_from_timestamp "bad-date" = "unknown" ∧
    day_key_selected "2022/01/15 08:30" false = "all" := by
  refine ⟨?_, ?_, (c6_day_key_amended "2022/01/15 08:30").1⟩
  · have h := (c6_day_key_amended "2022/01/15 08:30").2.2.2.2 (by decide) (by decide)
    rw [h]; decide
  · exact (c6_day_key_amended "bad-date").2.2.1 (by decide)

/-- Claim C3: an accounts input row whose Bank ID, Account Number or Entity
ID is empty after trimming contributes nothing: the run over the stream
extended by such a row produces exactly the state of the run without it —
same dedup sets and same rows in all five output files — and the run keeps
going (it is a total function of the row list). -/
theorem c3_invalid_row_skipped (rows : List AccRow) (row : AccRow)
    (h : accRowValid row = false) :
    accRun (rows ++ [row]) = accRun rows := by
  unfold accRun
  rw [List.foldl_append]
  simp [accStep, h]

/-- Witness for C3: a row with an empty Bank ID (after trimming) is
dropped. -/
theorem c3_invalid_row_skipped_witness :
    accRowValid ⟨"Bank B", " ", "A1", "E1", "Entity E"⟩ = false ∧
    accRun ([⟨"Bank B", "B1", "A1", "E1", "Entity E"⟩] ++
        [⟨"Bank B", " ", "A1", "E1", "Entity E"⟩]) =
      accRun [⟨"Bank B", "B1", "A1", "E1", "Entity E"⟩] := by
  exact ⟨by decide, c3_invalid_row_skipped _ _ (by decide)⟩

/-- Claim C4 (counterexample): on a header mismatch the accounts
transformation does abort with an error carrying the expected and the
actual headers, and no data row is produced — but not "before any output
file is created": all five role output files are opened (created) before
the header is validated. -/
theorem c4_counterexample :
    (transformAccounts ["bad header"] []).result =
      Except.error (ACCOUNTS_EXPECTED_HEADERS, ["bad header"]) ∧
    (transformAccounts ["bad header"] []).createdBeforeValidate = accRoleFiles ∧
    accRoleFiles ≠ [] := by
  exact ⟨rfl, rfl, by decide⟩

/-- Claim C4 amended: any input whose header differs from the expected
ordered header list makes the transformation abort with a fatal error
reporting both the expected and the actual headers, before any output data
row is written; the fixed-role output files, however, are already created
before the header check (always in the accounts transformation, and in the
transactions transformation when date-splitting is off; only with
date-splitting on are the output files created after validation). -/
theorem c4_header_mismatch_amended (accHeader : List String) (accRows : List AccRow)
    (txHeader : List String) (split : Bool) (txRows : List TxRow) :
    (accHeader ≠ ACCOUNTS_EXPECTED_HEADERS →
      (transformAccounts accHeader accRows).result =
        Except.error (ACCOUNTS_EXPECTED_HEADERS, accHeader) ∧
      (transformAccounts accHeader accRows).createdBeforeValidate = accRoleFiles) ∧
    (txHeader ≠ TX_EXPECTED_HEADERS →
      (transformTransactions txHeader split txRows).result =
        Except.error (TX_EXPECTED_HEADERS, txHeader) ∧
      (transformTransactions txHeader split txRows).createdBeforeValidate =
        txRoleFiles split) := by
  constructor
  · intro h
    exact ⟨by simp [transformAccounts, h], rfl⟩
  · intro h
    exact ⟨by simp [transformTransactions, h], rfl⟩

/-- Witness for the amended C4 at a concrete mismatching header. -/
theorem c4_header_mismatch_amended_witness :
    ((transformAccounts ["x"] []).result =
        Except.error (ACCOUNTS_EXPECTED_HEADERS, ["x"]) ∧
      (transformAccounts ["x"] []).createdBeforeValidate = accRoleFiles) ∧
    ((transformTransactions ["x"] false []).result =
        Except.error (TX_EXPECTED_HEADERS, ["x"]) ∧
      (transformTransactions ["x"] false []).createdBeforeValidate =
        txRoleFiles false) := by
  have h := c4_header_mismatch_amended ["x"] [] ["x"] false []
  exact ⟨h.1 (by decide), h.2 (by decide)⟩

/-- The transaction identifiers emitted from counter `k` onwards are the
decimal renderings of `k`, `k+1`, ... in input order. -/
theorem txProcess_ids (rows : List TxRow) : ∀ (split : Bool) (k : Nat),
    (txProcess split k rows).txRows.map (fun p => p.2.transaction_id) =
      (List.range rows.length).map (fun i => toString (i + k)) := by
  induction rows with
  | nil => intro split k; simp [txProcess]
  | cons r rs ih =>
    intro split k
    simp only [txProcess, List.map_cons, mkTxNodeRow, List.length_cons,
      List.range_succ_eq_map, List.map_map, ih split (k + 1)]
    refine congrArg₂ _ (by simp) ?_
    refine List.map_congr_left ?_
    intro i _
    simp [Function.comp]
    congr 1
    omega

/-- Claim C2: for an input whose header validates, the transactions
transformation succeeds, and the i-th data row (0-based i here) is emitted
with synthetic identifier `toString (i + 2)` — the 1-based physical line
number counting the header as line 1 — so the identifiers are "2", "3", …
strictly in input order, in both the split and the unsplit mode. -/
theorem c2_transaction_ids (split : Bool) (rows : List TxRow) :
    (transformTransactions TX_EXPECTED_HEADERS split rows).result =
      Except.ok (txProcess split 2 rows) ∧
    (txProcess split 2 rows).txRows.map (fun p => p.2.transaction_id) =
      (List.range rows.length).map (fun i => toString (i + 2)) := by
  exact ⟨by simp [transformTransactions], txProcess_ids rows split 2⟩

/-- Full characterization of the accounts row loop from an arbitrary
state: each dedup set and each output file is described by its own
recursion over the rows. -/
theorem accRun_characterization (rows : List AccRow) : ∀ st : AccState,
    rows.foldl accStep st =
      { seenBankIds := accSeenBanksAux st.seenBankIds rows
        seenEntityIds := accSeenEntitiesAux st.seenEntityIds rows
        seenAccountNumbers := accSeenAccountsAux st.seenAccountNumbers rows
        bankRows := st.bankRows ++ accBankNodesAux st.seenBankIds rows
        entityRows := st.entityRows ++ accEntityNodesAux st.seenEntityIds rows
        accountRows := st.accountRows ++ accAccountNodesAux st.seenAccountNumbers rows
        entityOwnsAccountRows := st.entityOwnsAccountRows ++
          (rows.filter accRowValid).map
            (fun r => (pyStrip r.entityId, pyStrip r.accountNumber))
        accountPartOfBankRows := st.accountPartOfBankRows ++
          (rows.filter accRowValid).map
            (fun r => (pyStrip r.accountNumber, pyStrip r.bankId)) } := by
  induction rows with
  | nil =>
    intro st
    simp [accSeenBanksAux, accSeenEntitiesAux, accSeenAccountsAux, accBankNodesAux,
      accEntityNodesAux, accAccountNodesAux]
  | cons r rs ih =>
    intro st
    rw [List.foldl_cons, ih (accStep st r)]
    by_cases hv : accRowValid r
    · by_cases hb : pyStrip r.bankId ∈ st.seenBankIds <;>
        by_cases he : pyStrip r.entityId ∈ st.seenEntityIds <;>
          by_cases ha : pyStrip r.accountNumber ∈ st.seenAccountNumbers <;>
            simp [accStep, hv, hb, he, ha, accSeenBanksAux, accSeenEntitiesAux,
              accSeenAccountsAux, accBankNodesAux, accEntityNodesAux,
              accAccountNodesAux, List.filter_cons, List.elem_iff]
    · simp [accStep, hv, accSeenBanksAux, accSeenEntitiesAux, accSeenAccountsAux,
        accBankNodesAux, accEntityNodesAux, accAccountNodesAux, List.filter_cons]

/-- The bank node identifiers are the first-occurrence dedup of the valid
rows' bank identifiers. -/
theorem accBankNodesAux_ids (rows : List AccRow) : ∀ seen : List String,
    (accBankNodesAux seen rows).map Prod.fst =
      dedupFirstAux seen ((rows.filter accRowValid).map fun r => pyStrip r.bankId) := by
  induction rows with
  | nil => intro seen; simp [accBankNodesAux, dedupFirstAux]
  | cons r rs ih =>
    intro seen
    by_cases hv : accRowValid r
    · by_cases hb : pyStrip r.bankId ∈ seen <;>
        simp [accBankNodesAux, dedupFirstAux, hv, hb, List.filter_cons, ih,
          List.elem_iff]
    · simp [accBankNodesAux, hv, List.filter_cons, ih]

/-- The entity node identifiers are the first-occurrence dedup of the valid
rows' entity identifiers. -/
theorem accEntityNodesAux_ids (rows : List AccRow) : ∀ seen : List String,
    (accEntityNodesAux seen rows).map Prod.fst =
      dedupFirstAux seen ((rows.filter accRowValid).map fun r => pyStrip r.entityId) := by
  induction rows with
  | nil => intro seen; simp [accEntityNodesAux, dedupFirstAux]
  | cons r rs ih =>
    intro seen
    by_cases hv : accRowValid r
    · by_cases he : pyStrip r.entityId ∈ seen <;>
        simp [accEntityNodesAux, dedupFirstAux, hv, he, List.filter_cons, ih,
          List.elem_iff]
    · simp [accEntityNodesAux, hv, List.filter_cons, ih]

/-- The account node rows are the first-occurrence dedup of the valid
rows' account numbers. -/
theorem accAccountNodesAux_ids (rows : List AccRow) : ∀ seen : List String,
    accAccountNodesAux seen rows =
      dedupFirstAux seen ((rows.filter accRowValid).map fun r => pyStrip r.accountNumber) := by
  induction rows with
  | nil => intro seen; simp [accAccountNodesAux, dedupFirstAux]
  | cons r rs ih =>
    intro seen
    by_cases hv : accRowValid r
    · by_cases ha : pyStrip r.accountNumber ∈ seen <;>
        simp [accAccountNodesAux, dedupFirstAux, hv, ha, List.filter_cons, ih,
          List.elem_iff]
    · simp [accAccountNodesAux, hv, List.filter_cons, ih]

/-- First-occurrence dedup never repeats a value and never emits a value
already seen. -/
theorem dedupFirstAux_nodup (ids : List String) : ∀ seen : List String,
    (dedupFirstAux seen ids).Nodup ∧ ∀ x ∈ dedupFirstAux seen ids, x ∉ seen := by
  induction ids with
  | nil => intro seen; simp [dedupFirstAux]
  | cons x xs ih =>
    intro seen
    by_cases hx : x ∈ seen
    · have hc : seen.contains x = true := List.elem_iff.mpr hx
      simp only [dedupFirstAux, if_pos hc]
      exact ih seen
    · have hc : ¬seen.contains x = true := fun h => hx (List.elem_iff.mp h)
      have h := ih (x :: seen)
      simp only [dedupFirstAux, if_neg hc]
      refine ⟨List.nodup_cons.mpr
        ⟨fun hmem => (h.2 x hmem) (List.mem_cons_self x seen), h.1⟩, ?_⟩
      intro y hy
      rcases List.mem_cons.mp hy with rfl | hy
      · exact hx
      · exact fun hmem => (h.2 y hy) (List.mem_cons_of_mem x hmem)

/-- Claim C1: over any accounts input stream, for each entity kind the
node file carries each identifier at most once (its identifier column is
duplicate-free) and equals exactly the first-occurrence deduplication — a
pure function of the identifier values of the earlier valid rows in input
order — of the identifiers of the rows passing the required-identifier
check, while both relationship files receive one row from every valid
input row, duplicated identifiers included. -/
theorem c1_dedup_nodes (rows : List AccRow) :
    ((accRun rows).bankRows.map Prod.fst =
        dedupFirst ((rows.filter accRowValid).map fun r => pyStrip r.bankId) ∧
      ((accRun rows).bankRows.map Prod.fst).Nodup) ∧
    ((accRun rows).entityRows.map Prod.fst =
        dedupFirst ((rows.filter accRowValid).map fun r => pyStrip r.entityId) ∧
      ((accRun rows).entityRows.map Prod.fst).Nodup) ∧
    ((accRun rows).accountRows =
        dedupFirst ((rows.filter accRowValid).map fun r => pyStrip r.accountNumber) ∧
      (accRun rows).accountRows.Nodup) ∧
    (accRun rows).entityOwnsAccountRows =
      (rows.filter accRowValid).map
        (fun r => (pyStrip r.entityId, pyStrip r.accountNumber)) ∧
    (accRun rows).accountPartOfBankRows =
      (rows.filter accRowValid).map
        (fun r => (pyStrip r.accountNumber, pyStrip r.bankId)) := by
  have hchar := accRun_characterization rows accInit
  have hbank : (accRun rows).bankRows.map Prod.fst =
      dedupFirst ((rows.filter accRowValid).map fun r => pyStrip r.bankId) := by
    rw [accRun, hchar]
    simpa [accInit, dedupFirst] using accBankNodesAux_ids rows []
  have hentity : (accRun rows).entityRows.map Prod.fst =
      dedupFirst ((rows.filter accRowValid).map fun r => pyStrip r.entityId) := by
    rw [accRun, hchar]
    simpa [accInit, dedupFirst] using accEntityNodesAux_ids rows []
  have haccount : (accRun rows).accountRows =
      dedupFirst ((rows.filter accRowValid).map fun r => pyStrip r.accountNumber) := by
    rw [accRun, hchar]
    simpa [accInit, dedupFirst] using accAccountNodesAux_ids rows []
  refine ⟨⟨hbank, ?_⟩, ⟨hentity, ?_⟩, ⟨haccount, ?_⟩, ?_, ?_⟩
  · rw [hbank]; exact (dedupFirstAux_nodup _ []).1
  · rw [hentity]; exact (dedupFirstAux_nodup _ []).1
  · rw [haccount]; exact (dedupFirstAux_nodup _ []).1
  · rw [accRun, hchar]; simp [accInit]
  · rw [accRun, hchar]; simp [accInit]

/-- `_flush` always leaves an empty buffer. -/
theorem pqFlush_buffer_empty (st : PqWriterState) : (pqFlush st).buffer = [] := by
  unfold pqFlush
  split
  · next h => exact h
  · rfl

/-- `_flush` preserves the writer invariant. -/
theorem pqFlush_inv (fn : List String) (acc : List (List String))
    (st : PqWriterState) (h : PqInv fn acc st) : PqInv fn acc (pqFlush st) := by
  obtain ⟨h1, h2, h3, h4⟩ := h
  unfold pqFlush
  by_cases hb : st.buffer = []
  · rw [if_pos hb]; exact ⟨h1, h2, h3, h4⟩
  · rw [if_neg hb]
    refine ⟨h1, h2, ?_, ?_⟩
    · simp only [pqJoinRows] at h3 ⊢
      simp [List.map_append, List.flatten_append, h3]
    · intro t ht
      simp only [List.mem_append, List.mem_singleton] at ht
      rcases ht with ht | rfl
      · exact h4 t ht
      · simp [h1]

/-- `writerow` preserves the writer invariant, accounting for the new
normalized row. -/
theorem pqWriterow_inv (fn : List String) (acc : List (List String))
    (st : PqWriterState) (row : List (String × String)) (h : PqInv fn acc st) :
    PqInv fn (acc ++ [normalizeRow fn row]) (pqWriterow st row) := by
  obtain ⟨h1, h2, h3, h4⟩ := h
  have hinv : PqInv fn (acc ++ [normalizeRow fn row])
      { st with buffer := st.buffer ++ [normalizeRow st.fieldnames row] } := by
    refine ⟨h1, h2, ?_, h4⟩
    simp only [pqJoinRows] at h3 ⊢
    simp [← List.append_assoc, h3, h1]
  simp only [pqWriterow]
  split
  · exact pqFlush_inv _ _ _ hinv
  · exact hinv

/-- Feeding rows preserves the writer invariant, accumulating the
normalized rows in order. -/
theorem pqFeed_inv (rows : List (List (String × String))) :
    ∀ (fn : List String) (acc : List (List String)) (st : PqWriterState),
      PqInv fn acc st → PqInv fn (acc ++ rows.map (normalizeRow fn)) (pqFeed st rows) := by
  induction rows with
  | nil => intro fn acc st h; simpa [pqFeed] using h
  | cons r rs ih =>
    intro fn acc st h
    have h1 := pqWriterow_inv fn acc st r h
    have h2 := ih fn (acc ++ [normalizeRow fn r]) (pqWriterow st r) h1
    simpa [pqFeed, List.append_assoc] using h2

/-- `close` on a writer satisfying the invariant flushes everything exactly
once (the file holds exactly the accumulated rows) and every block carries
the declared all-string schema. -/
theorem pqClose_inv (fn : List String) (acc : List (List String))
    (st : PqWriterState) (h : PqInv fn acc st) :
    pqJoinRows (pqClose st) = acc ∧
      ∀ t ∈ (pqClose st).written, t.schema = pqSchema fn := by
  obtain ⟨h1, h2, h3, h4⟩ := h
  unfold pqClose
  rw [if_neg (by simp [h2])]
  by_cases hb : st.buffer = []
  · rw [if_neg (by simp [hb])]
    have hacc : pqJoinRows st = acc := by simpa [hb] using h3
    by_cases hw : st.writerCreated = false
    · rw [if_pos hw]
      constructor
      · simp only [pqJoinRows] at hacc ⊢
        simp [List.map_append, List.flatten_append, hacc]
      · intro t ht
        simp only [List.mem_append, List.mem_singleton] at ht
        rcases ht with ht | rfl
        · exact h4 t ht
        · simp [h1]
    · rw [if_neg hw]
      exact ⟨by simpa [pqJoinRows] using hacc, fun t ht => h4 t ht⟩
  · rw [if_pos hb]
    have hflush := pqFlush_inv fn acc st ⟨h1, h2, h3, h4⟩
    obtain ⟨f1, f2, f3, f4⟩ := hflush
    have hbe := pqFlush_buffer_empty st
    constructor
    · have : pqJoinRows (pqFlush st) = acc := by
        rw [← f3, hbe, List.append_nil]
      simpa [pqJoinRows] using this
    · intro t ht
      exact f4 t (by simpa using ht)

/-- Claim C7: closing a columnar (parquet) sink that never received a row
still writes one valid block with zero rows and the full declared schema —
every declared column present, typed string — rather than writing no file;
and closing a sink after any sequence of `writerow` calls leaves the file
holding exactly the normalized rows received, each flushed exactly once, in
order, with every block carrying the declared all-string schema. -/
theorem c7_parquet_close (fieldnames : List String) (chunk_size : Nat)
    (rows : List (List (String × String))) :
    (pqClose (pqInit fieldnames chunk_size)).written =
      [{ schema := pqSchema fieldnames, rows := [] }] ∧
    pqJoinRows (pqClose (pqFeed (pqInit fieldnames chunk_size) rows)) =
      rows.map (normalizeRow fieldnames) ∧
    ((pqClose (pqFeed (pqInit fieldnames chunk_size) rows)).written.all
      fun t => t.schema == pqSchema fieldnames) = true := by
  have hinit : PqInv fieldnames [] (pqInit fieldnames chunk_size) := by
    refine ⟨rfl, rfl, rfl, ?_⟩
    intro t ht
    simp [pqInit] at ht
  have hfeed := pqFeed_inv rows fieldnames [] (pqInit fieldnames chunk_size) hinit
  have hclose := pqClose_inv fieldnames ([] ++ rows.map (normalizeRow fieldnames)) _ hfeed
  refine ⟨rfl, ?_, ?_⟩
  · simpa using hclose.1
  · rw [List.all_eq_true]
    intro t ht
    simpa [beq_iff_eq] using hclose.2 t ht
